import Mathlib

/-!
Verification development for the govuk-casa skip middleware
(src/middleware/page/skip.js) and the config-ingestion logging in
src/casa.js.

The middleware is embedded as a pure function from an explicit request
state (query parameter, journey origin, journey data, session) and a
session-save outcome to a result record holding the final request state,
the HTTP response action taken, whether next() was called, the log
entries written, and whether session.save was invoked.
-/

set_option autoImplicit false

namespace Casa

/-- JavaScript-like values: used for query-parameter values, page data
values and configuration objects. Objects are ordered association lists
of string keys, as JSON.stringify and Object iteration see them. -/
inductive JsVal where
  | str (s : String)
  | num (n : Int)
  | bool (b : Bool)
  | null
  | arr (elems : List JsVal)
  | obj (fields : List (String × JsVal))

/-- Page data: the top-level key/value payload stored for one waypoint. -/
abbrev PageData := List (String × JsVal)

/-- Validation errors stored for one waypoint: field name to error info. -/
abbrev PageErrors := List (String × JsVal)

/-- Remove every entry with the given key from an association list. -/
def removeKey {α : Type} (m : List (String × α)) (k : String) : List (String × α) :=
  m.filter (fun p => p.1 != k)

/-- Set the value of a key in an association list, replacing any previous
entry for that key. -/
def setKey {α : Type} (m : List (String × α)) (k : String) (v : α) : List (String × α) :=
  (k, v) :: removeKey m k

/-- Look up the value stored for a key in an association list. -/
def lookupKey {α : Type} (m : List (String × α)) (k : String) : Option α :=
  match m.find? (fun p => p.1 == k) with
  | some p => some p.2
  | none => none

/-- Journey data held on the request (req.journeyData): submitted data per
waypoint and validation errors per waypoint. -/
structure JourneyData where
  data : List (String × PageData)
  validationErrors : List (String × PageErrors)

/-- Value stored under the reserved skip key that marks a waypoint as
skipped. -/
def skipMarkerPayload : PageData := [("__skipped__", JsVal.bool true)]

/-- Decide whether a payload carries the skip marker, i.e. its reserved
key __skipped__ holds true. -/
def hasSkipMarker (payload : PageData) : Bool :=
  match lookupKey payload "__skipped__" with
  | some (JsVal.bool true) => true
  | _ => false

/-- Merge a new payload over an old one at the top level: keys present in
the new payload override the old values, other old keys are kept. -/
def mergeTopLevel (oldData newData : PageData) : PageData :=
  oldData.filter (fun p => (lookupKey newData p.1).isNone) ++ newData

/-- Modelled from the spec: getDataForWaypoint returns the payload stored
for a waypoint, or empty when none is stored. JourneyContext is not part
of the provided sources; only its contract is specified. -/
def JourneyData.getDataForPage (jd : JourneyData) (id : String) : PageData :=
  (lookupKey jd.data id).getD []

/-- Modelled from the spec: setDataForWaypoint performs a total replace,
not a merge, when the payload carries the skip marker, and a top-level
merge otherwise. JourneyContext is not part of the provided sources. -/
def JourneyData.setDataForPage (jd : JourneyData) (id : String) (payload : PageData) : JourneyData :=
  if hasSkipMarker payload then
    { jd with data := setKey jd.data id payload }
  else
    { jd with data := setKey jd.data id (mergeTopLevel (jd.getDataForPage id) payload) }

/-- Modelled from the spec: clearValidationErrors removes all validation
errors stored for a waypoint. JourneyContext is not part of the provided
sources. -/
def JourneyData.clearValidationErrorsForPage (jd : JourneyData) (id : String) : JourneyData :=
  { jd with validationErrors := removeKey jd.validationErrors id }

/-- Accessor mirroring JourneyData.getData. -/
def JourneyData.getData (jd : JourneyData) : List (String × PageData) :=
  jd.data

/-- Accessor mirroring JourneyData.getValidationErrors. -/
def JourneyData.getValidationErrors (jd : JourneyData) : List (String × PageErrors) :=
  jd.validationErrors

/-- Character class of the regex run by the middleware: the class
[a-z0-9-] under the i flag, i.e. ASCII letters of either case, digits
and the hyphen. -/
def isAlnumDashCI (c : Char) : Bool :=
  (decide (Char.ofNat 97 ≤ c) && decide (c ≤ Char.ofNat 122)) ||
  (decide (Char.ofNat 65 ≤ c) && decide (c ≤ Char.ofNat 90)) ||
  (decide (Char.ofNat 48 ≤ c) && decide (c ≤ Char.ofNat 57)) ||
  (c == Char.ofNat 45)

/-- Character class of the pattern as written in the spec, without the i
flag: lowercase ASCII letters, digits and the hyphen. -/
def isLowerAlnumDash (c : Char) : Bool :=
  (decide (Char.ofNat 97 ≤ c) && decide (c ≤ Char.ofNat 122)) ||
  (decide (Char.ofNat 48 ≤ c) && decide (c ≤ Char.ofNat 57)) ||
  (c == Char.ofNat 45)

/-- The test the code runs on the skipto value: skipto.match with the
case-insensitive regex anchored at both ends, length 1 to 200. -/
def matchesSkipPattern (s : String) : Bool :=
  decide (1 ≤ s.length) && decide (s.length ≤ 200) && s.toList.all isAlnumDashCI

/-- The pattern as the spec quotes it, taken literally and
case-sensitively, for comparison with the test the code runs. -/
def matchesSpecPattern (s : String) : Bool :=
  decide (1 ≤ s.length) && decide (s.length ≤ 200) && s.toList.all isLowerAlnumDash

/-- Guard the middleware applies before proceeding: the skipto value must
be a string and must match the case-insensitive pattern. -/
def skiptoAccepted : JsVal → Bool
  | JsVal.str s => matchesSkipPattern s
  | _ => false

/-- Journey origin object carried on the request; its originId field may
itself be absent. -/
structure JourneyOrigin where
  originId : Option String

/-- Request state read and written by the skip middleware. The skipto
field is req.query.skipto (absent, a string, or some other query value);
the session holds the fields the middleware writes before saving. -/
structure Session where
  journeyData : List (String × PageData)
  journeyValidationErrors : List (String × PageErrors)

structure Request where
  skipto : Option JsVal
  journeyOrigin : Option JourneyOrigin
  journeyWaypointId : String
  journeyData : JourneyData
  session : Session

/-- Response action taken by the middleware: nothing, res.status(n).send
with a body, or res.status(n).redirect to a location. -/
inductive Response where
  | noResponse
  | send (status : Nat) (body : String)
  | redirect (status : Nat) (location : String)
  deriving DecidableEq

/-- Log entries written through req.log. -/
inductive LogEntry where
  | info (msg : String)
  | error (msg : String)
  deriving DecidableEq

/-- Result of running the middleware: final request state, response
action, whether next() was called, logs written, and whether
session.save was invoked. -/
structure MwResult where
  request : Request
  response : Response
  nextCalled : Bool
  logs : List LogEntry
  sessionSaveCalled : Bool

/-- Helper for one step of the slash-collapsing replace: the Bool records
whether the previously emitted character was a slash. -/
def collapseSlashesAux : List Char → Bool → List Char
  | [], _ => []
  | c :: rest, prevSlash =>
    if c = Char.ofNat 47 then
      if prevSlash then collapseSlashesAux rest true
      else c :: collapseSlashesAux rest true
    else c :: collapseSlashesAux rest false

/-- The replace of every run of one or more slashes by a single slash,
applied by the middleware to the redirect location. -/
def collapseSlashes (s : String) : String :=
  String.mk (collapseSlashesAux s.toList false)

/-- Origin id string the middleware uses in the redirect location:
journeyOrigin defaults to an object with empty originId when absent, and
originId falls back to the empty string when absent or empty. -/
def effectiveOriginId (req : Request) : String :=
  match req.journeyOrigin with
  | none => ""
  | some o =>
    match o.originId with
    | none => ""
    | some oid => oid

/-- Embedding of the skip middleware of src/middleware/page/skip.js.
saveResult is the error the session.save callback receives: none on
success, some message on failure. -/
def skipMiddleware (mountUrl : String) (req : Request) (saveResult : Option String) : MwResult :=
  match req.skipto with
  | none =>
    { request := req, response := Response.noResponse, nextCalled := true,
      logs := [], sessionSaveCalled := false }
  | some skipto =>
    match skipto with
    | JsVal.str s =>
      if matchesSkipPattern s then
        let jd := (req.journeyData.clearValidationErrorsForPage
          req.journeyWaypointId).setDataForPage req.journeyWaypointId skipMarkerPayload
        let sess : Session :=
          { journeyData := jd.getData, journeyValidationErrors := jd.getValidationErrors }
        let location := collapseSlashes (mountUrl ++ "/" ++ effectiveOriginId req ++ "/" ++ s)
        let saveLogs := match saveResult with
          | none => []
          | some err => [LogEntry.error err]
        { request := { req with journeyData := jd, session := sess },
          response := Response.redirect 302 location,
          nextCalled := false,
          logs := LogEntry.info ("Marking waypoint " ++ req.journeyWaypointId ++ " as skipped") :: saveLogs,
          sessionSaveCalled := true }
      else
        { request := req, response := Response.send 400 "Invalid waypoint", nextCalled := false,
          logs := [], sessionSaveCalled := false }
    | _ =>
      { request := req, response := Response.send 400 "Invalid waypoint", nextCalled := false,
        logs := [], sessionSaveCalled := false }

/-! Config stringification of src/casa.js: ingestConfig serialises the
validated config with JSON.stringify and a replacer that maps the value
of every key named store or secret to the literal string NOT PARSED in
brackets, then logs the result. -/

/-- Decide whether a key is masked by the replacer of ingestConfig. -/
def isMaskedKey (k : String) : Bool :=
  k == "store" || k == "secret"

/-- JSON string escaping used by the stringifier: quote and backslash are
escaped, other characters pass through (control characters do not occur
in the values the claims quantify over). -/
def escapeJsonChar (c : Char) : String :=
  if c = Char.ofNat 34 then "\\\"" else if c = Char.ofNat 92 then "\\\\" else String.singleton c

/-- Quote a string as a JSON string literal. -/
def quoteJson (s : String) : String :=
  "\"" ++ String.join (s.toList.map escapeJsonChar) ++ "\""

mutual

/-- JSON.stringify of a value under the ingestConfig replacer; the
replacer never fires on array indices or the root key. -/
def stringifyVal : JsVal → String
  | JsVal.str s => quoteJson s
  | JsVal.num n => toString n
  | JsVal.bool true => "true"
  | JsVal.bool false => "false"
  | JsVal.null => "null"
  | JsVal.arr elems => "[" ++ stringifyElems elems ++ "]"
  | JsVal.obj fields => "\x7b" ++ stringifyFields fields ++ "\x7d"

/-- Comma-separated serialisation of array elements. -/
def stringifyElems : List JsVal → String
  | [] => ""
  | [v] => stringifyVal v
  | v :: rest => stringifyVal v ++ "," ++ stringifyElems rest

/-- Comma-separated serialisation of object fields: the ingestConfig
replacer substitutes the masked literal for the value of every store or
secret key before serialising it. -/
def stringifyFields : List (String × JsVal) → String
  | [] => ""
  | [(k, v)] =>
    quoteJson k ++ ":" ++ (if isMaskedKey k then quoteJson "[NOT PARSED]" else stringifyVal v)
  | (k, v) :: rest =>
    quoteJson k ++ ":" ++ (if isMaskedKey k then quoteJson "[NOT PARSED]" else stringifyVal v)
      ++ "," ++ stringifyFields rest

end

/-- The config string ingestConfig logs at boot for a validated config. -/
def ingestConfigLoggedString (validatedConfig : JsVal) : String :=
  "Parsed config: " ++ stringifyVal validatedConfig

mutual

/-- Replace the value of every store or secret key, at any depth, by the
masked literal: two configs differ only in their store and secret values
exactly when their scrubbed forms are equal. -/
def scrubSecrets : JsVal → JsVal
  | JsVal.str s => JsVal.str s
  | JsVal.num n => JsVal.num n
  | JsVal.bool b => JsVal.bool b
  | JsVal.null => JsVal.null
  | JsVal.arr elems => JsVal.arr (scrubElems elems)
  | JsVal.obj fields => JsVal.obj (scrubFields fields)

/-- Scrub each element of an array. -/
def scrubElems : List JsVal → List JsVal
  | [] => []
  | v :: rest => scrubSecrets v :: scrubElems rest

/-- Scrub the fields of an object: masked keys get the masked literal as
value, other values are scrubbed recursively. -/
def scrubFields : List (String × JsVal) → List (String × JsVal)
  | [] => []
  | (k, v) :: rest =>
    (k, if isMaskedKey k then JsVal.str "[NOT PARSED]" else scrubSecrets v) :: scrubFields rest

end

/-! Concrete request fixtures used by witnesses and counterexamples. -/

/-- Journey data with prior field data and a validation error stored for
waypoint step-two. -/
def jdStepTwo : JourneyData :=
  { data := [("step-one", [("name", JsVal.str "ann")]),
             ("step-two", [("field", JsVal.str "old"), ("other", JsVal.num 7)])],
    validationErrors := [("step-two", [("field", JsVal.str "required")])] }

/-- Session mirroring jdStepTwo, as left by earlier middleware. -/
def sessStepTwo : Session :=
  { journeyData := jdStepTwo.data, journeyValidationErrors := jdStepTwo.validationErrors }

/-- Request for /step-two?skipto=step-four with origin main: the skip
scenario of the spec. -/
def reqMain : Request :=
  { skipto := some (JsVal.str "step-four"),
    journeyOrigin := some { originId := some "main" },
    journeyWaypointId := "step-two",
    journeyData := jdStepTwo,
    session := sessStepTwo }

/-- Request whose skipto value is an uppercase string: it fails the
pattern the spec quotes but passes the case-insensitive test the code
runs. -/
def reqUpper : Request :=
  { skipto := some (JsVal.str "STEP-FOUR"),
    journeyOrigin := none,
    journeyWaypointId := "step-two",
    journeyData := jdStepTwo,
    session := sessStepTwo }

/-- Request whose skipto value contains a character outside the pattern. -/
def reqBadChar : Request :=
  { skipto := some (JsVal.str "step_four"),
    journeyOrigin := some { originId := some "main" },
    journeyWaypointId := "step-two",
    journeyData := jdStepTwo,
    session := sessStepTwo }

/-- Request without a skipto query parameter. -/
def reqNoSkip : Request :=
  { skipto := none,
    journeyOrigin := some { originId := some "main" },
    journeyWaypointId := "step-two",
    journeyData := jdStepTwo,
    session := sessStepTwo }

/-- Journey data after the middleware clears the validation errors of a
waypoint and overwrites its data with the skip marker. -/
def skippedJourneyData (jd : JourneyData) (wid : String) : JourneyData :=
  { data := setKey jd.data wid skipMarkerPayload,
    validationErrors := removeKey jd.validationErrors wid }

/-- Validated config fixture with secret material in the store key at the
top level and a secret key nested inside sessions. -/
def configA : JsVal :=
  JsVal.obj [("mountUrl", JsVal.str "/app"),
             ("sessions", JsVal.obj [("secret", JsVal.str "hunter2"), ("ttl", JsVal.num 3600)]),
             ("store", JsVal.str "redis-session-store")]

/-- Validated config fixture agreeing with configA everywhere except the
store and secret values. -/
def configB : JsVal :=
  JsVal.obj [("mountUrl", JsVal.str "/app"),
             ("sessions", JsVal.obj [("secret", JsVal.str "swordfish"), ("ttl", JsVal.num 3600)]),
             ("store", JsVal.str "in-memory-store")]

/-! Helper lemmas about the association-list operations. -/

@[simp]
theorem removeKey_idem {α : Type} (m : List (String × α)) (k : String) :
    removeKey (removeKey m k) k = removeKey m k := by
  apply List.filter_eq_self.mpr
  intro a ha
  exact (List.mem_filter.mp ha).2

@[simp]
theorem removeKey_cons_self {α : Type} (m : List (String × α)) (k : String) (v : α) :
    removeKey ((k, v) :: m) k = removeKey m k := by
  simp [removeKey, List.filter_cons]

theorem setKey_idem {α : Type} (m : List (String × α)) (k : String) (v : α) :
    setKey (setKey m k v) k v = setKey m k v := by
  simp [setKey]

@[simp]
theorem lookupKey_setKey {α : Type} (m : List (String × α)) (k : String) (v : α) :
    lookupKey (setKey m k v) k = some v := by
  simp [lookupKey, setKey, List.find?_cons]

@[simp]
theorem lookupKey_removeKey {α : Type} (m : List (String × α)) (k : String) :
    lookupKey (removeKey m k) k = none := by
  have h : List.find? (fun p => p.1 == k) (removeKey m k) = none := by
    apply List.find?_eq_none.mpr
    intro p hp
    have hne := (List.mem_filter.mp hp).2
    simpa using hne
  simp [lookupKey, h]

@[simp]
theorem hasSkipMarker_skipMarkerPayload : hasSkipMarker skipMarkerPayload = true := rfl

/-- Unfolding of the middleware on the valid-skipto path: errors cleared,
data overwritten with the marker, session rewritten from the journey
data, one info log plus an error log on save failure, save invoked, and
a 302 redirect to the collapsed joined path. -/
theorem skipMiddleware_valid (m : String) (req : Request) (sr : Option String) (s : String)
    (hq : req.skipto = some (JsVal.str s)) (hm : matchesSkipPattern s = true) :
    skipMiddleware m req sr =
      { request := { req with
          journeyData := skippedJourneyData req.journeyData req.journeyWaypointId,
          session := { journeyData := (skippedJourneyData req.journeyData req.journeyWaypointId).data,
                       journeyValidationErrors := (skippedJourneyData req.journeyData req.journeyWaypointId).validationErrors } },
        response := Response.redirect 302 (collapseSlashes (m ++ "/" ++ effectiveOriginId req ++ "/" ++ s)),
        nextCalled := false,
        logs := LogEntry.info ("Marking waypoint " ++ req.journeyWaypointId ++ " as skipped") ::
          (match sr with
           | none => []
           | some err => [LogEntry.error err]),
        sessionSaveCalled := true } := by
  unfold skipMiddleware
  rw [hq]
  simp [hm, skippedJourneyData, JourneyData.setDataForPage, JourneyData.clearValidationErrorsForPage,
    JourneyData.getData, JourneyData.getValidationErrors]

/-- Unfolding of the middleware when skipto is present but rejected: a
400 send, no next(), no logs, no save, request untouched. -/
theorem skipMiddleware_invalid (m : String) (req : Request) (sr : Option String) (q : JsVal)
    (hq : req.skipto = some q) (hns : skiptoAccepted q = false) :
    skipMiddleware m req sr =
      { request := req, response := Response.send 400 "Invalid waypoint",
        nextCalled := false, logs := [], sessionSaveCalled := false } := by
  unfold skipMiddleware
  rw [hq]
  cases q with
  | str s =>
    have hm : matchesSkipPattern s = false := by simpa [skiptoAccepted] using hns
    simp [hm]
  | num n => simp
  | bool b => simp
  | null => simp
  | arr elems => simp
  | obj fields => simp

/-- Idempotence of the skip rewrite on journey data. -/
theorem skippedJourneyData_idem (jd : JourneyData) (wid : String) :
    skippedJourneyData (skippedJourneyData jd wid) wid = skippedJourneyData jd wid := by
  simp [skippedJourneyData, setKey_idem]

/-- C8: when the skipto query parameter is absent the middleware only
calls next(): no response, no logs, no session save, and the request
state is left untouched. -/
theorem C8_no_skipto_passthrough (m : String) (req : Request) (sr : Option String)
    (hq : req.skipto = none) :
    skipMiddleware m req sr =
      { request := req, response := Response.noResponse, nextCalled := true,
        logs := [], sessionSaveCalled := false } := by
  unfold skipMiddleware
  rw [hq]

/-- C8 witness at a concrete request without skipto. -/
theorem C8_witness :
    skipMiddleware "/" reqNoSkip none =
      { request := reqNoSkip, response := Response.noResponse, nextCalled := true,
        logs := [], sessionSaveCalled := false } :=
  C8_no_skipto_passthrough "/" reqNoSkip none rfl

/-- C1 counterexample: the code tests skipto against the pattern with the
case-insensitive flag, so the uppercase value STEP-FOUR, which does not
match the pattern quoted by the claim, is not answered with a 400; the
middleware redirects instead. -/
theorem C1_counterexample :
    matchesSpecPattern "STEP-FOUR" = false ∧
    (skipMiddleware "/" reqUpper none).response = Response.redirect 302 "/STEP-FOUR" := by
  constructor
  · decide
  · rfl

/-- C1 (amended): a present skipto that is not a string matching the
waypoint id pattern case-insensitively is answered with a 400 send and
no change to request state, logs or session-save; a case-insensitive
match is never answered with a 400 and yields a 302 redirect. -/
theorem C1_amended_case_insensitive_validation (m : String) (req : Request) (sr : Option String)
    (q : JsVal) (hq : req.skipto = some q) :
    (skiptoAccepted q = false →
      skipMiddleware m req sr =
        { request := req, response := Response.send 400 "Invalid waypoint",
          nextCalled := false, logs := [], sessionSaveCalled := false }) ∧
    (skiptoAccepted q = true →
      ∃ loc, (skipMiddleware m req sr).response = Response.redirect 302 loc) := by
  constructor
  · intro hns
    exact skipMiddleware_invalid m req sr q hq hns
  · intro hacc
    cases q with
    | str s =>
      have hm : matchesSkipPattern s = true := by simpa [skiptoAccepted] using hacc
      exact ⟨collapseSlashes (m ++ "/" ++ effectiveOriginId req ++ "/" ++ s), by
        rw [skipMiddleware_valid m req sr s hq hm]⟩
    | num n => simp [skiptoAccepted] at hacc
    | bool b => simp [skiptoAccepted] at hacc
    | null => simp [skiptoAccepted] at hacc
    | arr elems => simp [skiptoAccepted] at hacc
    | obj fields => simp [skiptoAccepted] at hacc

/-- C1 witness: a skipto value with an underscore is rejected with a 400
and the request is untouched. -/
theorem C1_witness :
    skipMiddleware "/" reqBadChar none =
      { request := reqBadChar, response := Response.send 400 "Invalid waypoint",
        nextCalled := false, logs := [], sessionSaveCalled := false } :=
  (C1_amended_case_insensitive_validation "/" reqBadChar none (JsVal.str "step_four") rfl).1
    (by decide)

/-- C2: on a valid skipto the stored data of the current waypoint becomes
exactly the one-key object holding __skipped__ set to true, whatever was
stored before. -/
theorem C2_skip_overwrites_waypoint_data (m : String) (req : Request) (sr : Option String)
    (s : String) (hq : req.skipto = some (JsVal.str s)) (hm : matchesSkipPattern s = true) :
    lookupKey (skipMiddleware m req sr).request.journeyData.data req.journeyWaypointId
      = some [("__skipped__", JsVal.bool true)] := by
  rw [skipMiddleware_valid m req sr s hq hm]
  simp [skippedJourneyData, skipMarkerPayload]

/-- C2 witness: the skip scenario request had two data keys stored for
step-two; afterwards only the skip marker remains. -/
theorem C2_witness :
    lookupKey (skipMiddleware "/" reqMain none).request.journeyData.data "step-two"
      = some [("__skipped__", JsVal.bool true)] := by
  have h := C2_skip_overwrites_waypoint_data "/" reqMain none "step-four" rfl (by decide)
  simpa [reqMain] using h

/-- C3: on a valid skipto the resulting journey data and the session copy
hold no validation errors for the current waypoint. -/
theorem C3_skip_clears_validation_errors (m : String) (req : Request) (sr : Option String)
    (s : String) (hq : req.skipto = some (JsVal.str s)) (hm : matchesSkipPattern s = true) :
    lookupKey (skipMiddleware m req sr).request.journeyData.validationErrors
        req.journeyWaypointId = none ∧
    lookupKey (skipMiddleware m req sr).request.session.journeyValidationErrors
        req.journeyWaypointId = none := by
  rw [skipMiddleware_valid m req sr s hq hm]
  constructor <;> simp [skippedJourneyData]

/-- C3 witness: the skip scenario request had a validation error stored
for step-two; afterwards none is found. -/
theorem C3_witness :
    lookupKey (skipMiddleware "/" reqMain none).request.journeyData.validationErrors
      "step-two" = none := by
  have h := (C3_skip_clears_validation_errors "/" reqMain none "step-four" rfl (by decide)).1
  simpa [reqMain] using h

/-- C4: on a valid skipto the middleware answers a 302 redirect to the
path joining mountUrl, the effective origin id and skipto with slashes,
with every run of slashes collapsed. -/
theorem C4_redirect_path (m : String) (req : Request) (sr : Option String)
    (s : String) (hq : req.skipto = some (JsVal.str s)) (hm : matchesSkipPattern s = true) :
    (skipMiddleware m req sr).response
      = Response.redirect 302 (collapseSlashes (m ++ "/" ++ effectiveOriginId req ++ "/" ++ s)) := by
  rw [skipMiddleware_valid m req sr s hq hm]

/-- C4 witness: origin main and skipto step-four under mountUrl / give
the collapsed redirect target /main/step-four. -/
theorem C4_witness :
    (skipMiddleware "/" reqMain none).response = Response.redirect 302 "/main/step-four" := by
  have h := C4_redirect_path "/" reqMain none "step-four" rfl (by decide)
  rw [h]
  rfl

/-- C5: the skip middleware is idempotent on the valid path: running it
again on the request state it produced, with the same mount url and save
outcome, returns the identical result record, so waypoint data,
validation errors, session contents and the response all agree with the
single application. -/
theorem C5_skip_idempotent (m : String) (req : Request) (sr : Option String)
    (s : String) (hq : req.skipto = some (JsVal.str s)) (hm : matchesSkipPattern s = true) :
    skipMiddleware m (skipMiddleware m req sr).request sr = skipMiddleware m req sr := by
  have h1 := skipMiddleware_valid m req sr s hq hm
  have hq2 : (skipMiddleware m req sr).request.skipto = some (JsVal.str s) := by
    rw [h1]; exact hq
  have h2 := skipMiddleware_valid m (skipMiddleware m req sr).request sr s hq2 hm
  rw [h2, h1]
  simp [skippedJourneyData_idem, effectiveOriginId]

/-- C5 witness at the skip scenario request. -/
theorem C5_witness :
    skipMiddleware "/" (skipMiddleware "/" reqMain none).request none
      = skipMiddleware "/" reqMain none :=
  C5_skip_idempotent "/" reqMain none "step-four" rfl (by decide)

/-- C6 counterexample: the skip code of the repository writes a log line
and the HTTP response itself, and itself assembles the full redirect
path, rather than returning a waypoint id and origin id to a caller. -/
theorem C6_counterexample :
    (skipMiddleware "/" reqMain none).logs
      = [LogEntry.info "Marking waypoint step-two as skipped"] ∧
    (skipMiddleware "/" reqMain none).response = Response.redirect 302 "/main/step-four" := by
  constructor
  · rfl
  · rfl

/-- C6 (amended): on a valid skipto the skip middleware writes an info
log naming the waypoint and writes the response directly as a 302
redirect whose full path it assembles itself from mountUrl, origin id
and skipto. -/
theorem C6_amended_middleware_writes_effects (m : String) (req : Request) (sr : Option String)
    (s : String) (hq : req.skipto = some (JsVal.str s)) (hm : matchesSkipPattern s = true) :
    (skipMiddleware m req sr).logs.head?
      = some (LogEntry.info ("Marking waypoint " ++ req.journeyWaypointId ++ " as skipped")) ∧
    (skipMiddleware m req sr).response
      = Response.redirect 302 (collapseSlashes (m ++ "/" ++ effectiveOriginId req ++ "/" ++ s)) := by
  rw [skipMiddleware_valid m req sr s hq hm]
  exact ⟨rfl, rfl⟩

/-- C6 witness at the skip scenario request. -/
theorem C6_witness :
    (skipMiddleware "/" reqMain none).logs.head?
      = some (LogEntry.info "Marking waypoint step-two as skipped") := by
  have h := (C6_amended_middleware_writes_effects "/" reqMain none "step-four" rfl (by decide)).1
  simpa [reqMain] using h

/-- C7 counterexample: the skip code of the repository writes the updated
journey data into the session and invokes session.save itself; the entry
for step-two in the session now holds the skip marker. -/
theorem C7_counterexample :
    (skipMiddleware "/" reqMain none).sessionSaveCalled = true ∧
    (skipMiddleware "/" reqMain none).request.session.journeyData
      = [("step-two", [("__skipped__", JsVal.bool true)]),
         ("step-one", [("name", JsVal.str "ann")])] := by
  constructor
  · rfl
  · rfl

/-- C7 (amended): on a valid skipto the skip middleware itself copies the
updated journey data and validation errors into the session and itself
triggers the session save; persistence is not left to a caller. -/
theorem C7_amended_internal_persistence (m : String) (req : Request) (sr : Option String)
    (s : String) (hq : req.skipto = some (JsVal.str s)) (hm : matchesSkipPattern s = true) :
    (skipMiddleware m req sr).sessionSaveCalled = true ∧
    (skipMiddleware m req sr).request.session.journeyData
      = (skipMiddleware m req sr).request.journeyData.getData ∧
    (skipMiddleware m req sr).request.session.journeyValidationErrors
      = (skipMiddleware m req sr).request.journeyData.getValidationErrors := by
  rw [skipMiddleware_valid m req sr s hq hm]
  exact ⟨rfl, rfl, rfl⟩

/-- C7 witness at the skip scenario request. -/
theorem C7_witness :
    (skipMiddleware "/" reqMain none).sessionSaveCalled = true :=
  (C7_amended_internal_persistence "/" reqMain none "step-four" rfl (by decide)).1

/-- C9: when the session save fails, the error is only logged: response,
final request state and in-memory skip marker agree with the successful
save, the log gains exactly one error entry, and the 302 redirect is
still issued. -/
theorem C9_save_failure_only_logged (m : String) (req : Request) (err : String)
    (s : String) (hq : req.skipto = some (JsVal.str s)) (hm : matchesSkipPattern s = true) :
    (skipMiddleware m req (some err)).response = (skipMiddleware m req none).response ∧
    (skipMiddleware m req (some err)).request = (skipMiddleware m req none).request ∧
    (skipMiddleware m req (some err)).logs
      = (skipMiddleware m req none).logs ++ [LogEntry.error err] ∧
    (∃ loc, (skipMiddleware m req (some err)).response = Response.redirect 302 loc) := by
  rw [skipMiddleware_valid m req (some err) s hq hm,
    skipMiddleware_valid m req none s hq hm]
  exact ⟨rfl, rfl, rfl, ⟨_, rfl⟩⟩

/-- C9 witness with a concrete save failure. -/
theorem C9_witness :
    (skipMiddleware "/" reqMain (some "session store offline")).response
      = (skipMiddleware "/" reqMain none).response :=
  (C9_save_failure_only_logged "/" reqMain "session store offline" "step-four" rfl (by decide)).1

mutual

/-- Serialising a scrubbed value gives the same string as serialising the
original, because the replacer masks exactly the scrubbed positions. -/
theorem stringifyVal_scrubSecrets (v : JsVal) :
    stringifyVal (scrubSecrets v) = stringifyVal v := by
  cases v with
  | str s => rfl
  | num n => rfl
  | bool b => cases b <;> rfl
  | null => rfl
  | arr elems =>
    simp [scrubSecrets, stringifyVal, stringifyElems_scrubSecrets elems]
  | obj fields =>
    simp [scrubSecrets, stringifyVal, stringifyFields_scrubSecrets fields]

/-- Array elements: scrubbing commutes with serialisation. -/
theorem stringifyElems_scrubSecrets (l : List JsVal) :
    stringifyElems (scrubElems l) = stringifyElems l := by
  cases l with
  | nil => rfl
  | cons v rest =>
    cases rest with
    | nil => simp [scrubElems, stringifyElems, stringifyVal_scrubSecrets v]
    | cons w ws =>
      simp only [scrubElems, stringifyElems, stringifyVal_scrubSecrets v]
      rw [show scrubSecrets w :: scrubElems ws = scrubElems (w :: ws) from rfl,
        stringifyElems_scrubSecrets (w :: ws)]

/-- Object fields: scrubbing commutes with serialisation, since masked
keys serialise to the masked literal on both sides. -/
theorem stringifyFields_scrubSecrets (l : List (String × JsVal)) :
    stringifyFields (scrubFields l) = stringifyFields l := by
  cases l with
  | nil => rfl
  | cons p rest =>
    obtain ⟨k, v⟩ := p
    cases rest with
    | nil =>
      by_cases hk : isMaskedKey k = true
      · simp [scrubFields, stringifyFields, hk]
      · simp [scrubFields, stringifyFields, hk, stringifyVal_scrubSecrets v]
    | cons q qs =>
      obtain ⟨k2, v2⟩ := q
      by_cases hk : isMaskedKey k = true
      · simp only [scrubFields, stringifyFields, hk, if_true]
        rw [show (k2, if isMaskedKey k2 then JsVal.str "[NOT PARSED]" else scrubSecrets v2) ::
            scrubFields qs = scrubFields ((k2, v2) :: qs) from rfl,
          stringifyFields_scrubSecrets ((k2, v2) :: qs)]
      · simp only [scrubFields, stringifyFields, hk, if_false, stringifyVal_scrubSecrets v]
        rw [show (k2, if isMaskedKey k2 then JsVal.str "[NOT PARSED]" else scrubSecrets v2) ::
            scrubFields qs = scrubFields ((k2, v2) :: qs) from rfl,
          stringifyFields_scrubSecrets ((k2, v2) :: qs)]
        simp [hk, stringifyVal_scrubSecrets v]

end

/-- C10: the config string logged at boot is independent of the store and
secret values: any two validated configs that agree after every store or
secret value is masked produce the identical logged string, each such
value rendering as the NOT PARSED literal. -/
theorem C10_logged_config_independent_of_secrets (c1 c2 : JsVal)
    (h : scrubSecrets c1 = scrubSecrets c2) :
    ingestConfigLoggedString c1 = ingestConfigLoggedString c2 := by
  unfold ingestConfigLoggedString
  rw [← stringifyVal_scrubSecrets c1, ← stringifyVal_scrubSecrets c2, h]

/-- C10 witness: the two config fixtures differ in secret material only
and log the identical string. -/
theorem C10_witness :
    ingestConfigLoggedString configA = ingestConfigLoggedString configB :=
  C10_logged_config_independent_of_secrets configA configB rfl

end Casa
